import Mathlib

/-!
Shallow embedding of `src/filter_users.py`, a small interactive command-line
tool that loads user records from a JSON file and filters them by one of the
fields `name`, `age`, `email`.

Modelling conventions:
* A JSON scalar loaded by `json.load` becomes a `PyVal` (Python `None`,
  `bool`, `int`, `float`, `str`).  Nested arrays/objects inside a field are
  not needed by any claim and are omitted from the value universe.
  A `float` carries its Python `repr` string as payload, since the only
  operation the program applies to a non-integer field value is `str`.
* A user record (a Python `dict`) is an association list from field names to
  values; `dict.get` is lookup with a default.  Python dict keys are unique,
  so first-match lookup is faithful.
* Python semantics embedded faithfully: `bool` is a subclass of `int`, so
  `isinstance(True, int)` is `True` and `True == 1`, `False == 0`.
* `str.strip` / `str.lower` are modelled on ASCII (`pyStrip` / `pyLower`);
  no claim depends on non-ASCII case folding.
* File I/O is modelled by a `LoadResult` (the three possible outcomes of
  `load_users`), standard input by a list of `InputEvent`s where an
  exhausted list means end-of-input (`EOFError`) and `cancelled` means
  `KeyboardInterrupt`/`EOFError` at a prompt.  The observable behaviour of a
  run is the ordered list of strings passed to `print` plus the process exit
  status (`sys.exit(1)` or normal return = 0).  Prompt text passed to
  `input(...)` is part of the prompt interaction, not a printed message.
-/

namespace FilterUsers

/-- A Python value as produced by `json.load` for a record field (scalars).
`float` carries its Python `repr` string. -/
inductive PyVal where
  | none
  | bool (b : Bool)
  | int (n : Int)
  | float (r : String)
  | str (s : String)
  deriving DecidableEq, Repr

/-- A user record: a Python dict from field names to values. -/
def User : Type := List (String × PyVal)

instance : DecidableEq User := by
  unfold User
  infer_instance

/-- Python `u.get(k, default)`. -/
def dictGetD (u : User) (k : String) (d : PyVal) : PyVal :=
  (List.lookup k u).getD d

/-- Python `u.get(k)` (default `None`). -/
def dictGet (u : User) (k : String) : PyVal :=
  dictGetD u k PyVal.none

/-- Python `str(v)` for the scalar values in our universe. -/
def pyStr : PyVal → String
  | PyVal.none => "None"
  | PyVal.bool true => "True"
  | PyVal.bool false => "False"
  | PyVal.int n => toString n
  | PyVal.float r => r
  | PyVal.str s => s

/-- ASCII lower-casing of one character, as `str.lower` does on ASCII. -/
def asciiLower (c : Char) : Char :=
  if 'A' ≤ c ∧ c ≤ 'Z' then Char.ofNat (c.toNat + 32) else c

/-- Model of Python `str.lower` (ASCII). -/
def pyLower (s : String) : String :=
  String.mk (s.toList.map asciiLower)

/-- The whitespace characters stripped by Python `str.strip` (ASCII subset). -/
def isPySpace (c : Char) : Bool :=
  c = ' ' || c = '\t' || c = '\n' || c = '\r' || c = '\x0b' || c = '\x0c'

/-- Model of Python `str.strip()`. -/
def pyStrip (s : String) : String :=
  String.mk (((s.toList.dropWhile isPySpace).reverse.dropWhile isPySpace).reverse)

/-- Python `isinstance(v, int)`: true for `int` and also for `bool`,
because `bool` is a subclass of `int` in Python. -/
def isInstInt : PyVal → Bool
  | PyVal.int _ => true
  | PyVal.bool _ => true
  | _ => false

/-- The numeric value of a Python `int` instance (`True == 1`, `False == 0`);
zero (unused) on non-instances. -/
def pyIntVal : PyVal → Int
  | PyVal.int n => n
  | PyVal.bool b => cond b 1 0
  | _ => 0

/-- `filter_users_by_name(users, name)`:
`[u for u in users if str(u.get("name", "")).lower() == name.lower()]`. -/
def filter_users_by_name (users : List User) (name : String) : List User :=
  let name_lower := pyLower name
  users.filter (fun u => pyLower (pyStr (dictGetD u "name" (PyVal.str ""))) = name_lower)

/-- `filter_users_by_age(users, age)`:
`[u for u in users if isinstance(u.get("age"), int) and u["age"] == age]`.
When the `isinstance` test passes the key is present, so `u["age"]` is the
same value `u.get("age")` returned. -/
def filter_users_by_age (users : List User) (age : Int) : List User :=
  users.filter (fun u => isInstInt (dictGet u "age") && (pyIntVal (dictGet u "age") = age))

/-- `filter_users_by_email(users, email)`:
`[u for u in users if str(u.get("email", "")).lower() == email.lower()]`. -/
def filter_users_by_email (users : List User) (email : String) : List User :=
  let email_lower := pyLower email
  users.filter (fun u => pyLower (pyStr (dictGetD u "email" (PyVal.str ""))) = email_lower)

/-- The line printed for one user by `print_users`: the f-string
interpolating `user.get` of `id`, `name`, `age`, `email`, where an f-string
renders each value with `str`. -/
def format_user (u : User) : String :=
  "id: " ++ pyStr (dictGet u "id") ++ ", name: " ++ pyStr (dictGet u "name") ++
    ", age: " ++ pyStr (dictGet u "age") ++ ", email: " ++ pyStr (dictGet u "email")

/-- `print_users(users)`: the list of lines it prints. -/
def print_users (users : List User) : List String :=
  if users.isEmpty then ["No users found."]
  else users.map format_user

/-- `DEFAULT_USERS_FILE = "users.json"`. -/
def DEFAULT_USERS_FILE : String := "users.json"

/-- The outcome of `load_users()` on the default path: the file is read and
parsed (`ok`), it cannot be opened (`FileNotFoundError`), or its contents
are not valid JSON (`json.JSONDecodeError`). -/
inductive LoadResult where
  | ok (users : List User)
  | fileNotFound
  | parseError

/-- One interaction with `input(...)`: a line of text, or a
`KeyboardInterrupt`/`EOFError` raised at the prompt. -/
inductive InputEvent where
  | line (s : String)
  | cancelled
  deriving DecidableEq, Repr

/-- Pull the next event off standard input; an exhausted stream is
end-of-input, which `input` surfaces as `EOFError` (hence `cancelled`). -/
def nextInput : List InputEvent → InputEvent × List InputEvent
  | [] => (InputEvent.cancelled, [])
  | e :: rest => (e, rest)

/-- The observable result of a run: the strings passed to `print`, in
order, and the process exit status. -/
structure RunResult where
  output : List String
  exitCode : Nat
  deriving DecidableEq, Repr

/-- `get_choice()`: strip and lower-case the entered line, accept only
`name`/`age`/`email`; on cancellation print the notice and return `None`;
on an invalid choice print the error and return `None`.
Returns the choice (or `none`) together with the printed messages. -/
def get_choice (ev : InputEvent) : Option String × List String :=
  match ev with
  | InputEvent.cancelled => (none, ["\nInput cancelled."])
  | InputEvent.line s =>
    let choice := pyLower (pyStrip s)
    if choice ∈ ["name", "age", "email"] then (some choice, [])
    else (none, ["Invalid choice. Please enter 'name', 'age', or 'email'."])

/-- Model of Python `int(s)` on a string: optional surrounding whitespace,
an optional sign, then ASCII digits optionally separated by single
underscores (`"1_000"`); anything else raises `ValueError` (`none`).
Non-ASCII digits are not modelled. -/
def pyIntDigits : List Char → Nat → Option Nat
  | [], acc => some acc
  | c :: cs, acc =>
    if c.isDigit then pyIntDigits cs (acc * 10 + (c.toNat - 48))
    else if c = '_' then
      match cs with
      | [] => none
      | c2 :: cs2 =>
        if c2.isDigit then pyIntDigits cs2 (acc * 10 + (c2.toNat - 48))
        else none
    else none

/-- Python `int(s)` (see `pyIntDigits`). -/
def pyInt (s : String) : Option Int :=
  let cs := (pyStrip s).toList
  let signed : Int × List Char :=
    match cs with
    | '+' :: r => (1, r)
    | '-' :: r => (-1, r)
    | r => (1, r)
  match signed.2 with
  | [] => none
  | c :: rest =>
    if c.isDigit then (pyIntDigits rest (c.toNat - 48)).map (fun n => signed.1 * n)
    else none

/-- `get_value_for_choice(choice)`: read a line and strip it; on
cancellation print the notice and return `None`.  The `choice` argument
only selects the prompt text, which is not a printed message. -/
def get_value_for_choice (_choice : String) (ev : InputEvent) : Option String × List String :=
  match ev with
  | InputEvent.cancelled => (none, ["\nInput cancelled."])
  | InputEvent.line s => (some (pyStrip s), [])

/-- The dispatch at the end of `main`: apply the filter selected by
`choice` to `value` and print building the result lines; for `age`, first
parse `value` as an integer, reporting failure. -/
def run_filter (users : List User) (choice : String) (value : String) : List String :=
  if choice = "name" then print_users (filter_users_by_name users value)
  else if choice = "age" then
    match pyInt value with
    | none => ["Please enter a valid integer for age."]
    | some age => print_users (filter_users_by_age users age)
  else print_users (filter_users_by_email users value)

/-- `main()` after a successful `load_users()`: prompt for a choice, then
for a value, validate, dispatch, print.  Every path returns normally
(exit status 0). -/
def mainLoaded (users : List User) (stdin : List InputEvent) : RunResult :=
  match get_choice (nextInput stdin).1 with
  | (none, out1) => ⟨out1, 0⟩
  | (some choice, out1) =>
    match get_value_for_choice choice (nextInput (nextInput stdin).2).1 with
    | (none, out2) => ⟨out1 ++ (out2 ++ ["No value provided; exiting."]), 0⟩
    | (some value, out2) =>
      if value = "" then ⟨out1 ++ (out2 ++ ["No value provided; exiting."]), 0⟩
      else ⟨out1 ++ (out2 ++ run_filter users choice value), 0⟩

/-- `main()`: a `load_users()` failure is reported with a message naming
the file and the process exits with status 1, before any prompting;
otherwise the interactive flow runs (`mainLoaded`). -/
def main (load : LoadResult) (stdin : List InputEvent) : RunResult :=
  match load with
  | LoadResult.fileNotFound => ⟨["Users file not found: " ++ DEFAULT_USERS_FILE], 1⟩
  | LoadResult.parseError => ⟨["Users file is not valid JSON: " ++ DEFAULT_USERS_FILE], 1⟩
  | LoadResult.ok users => mainLoaded users stdin

/-! ## Spec-side definitions

`specNameMatch` is written from the words of the spec, to be compared with
the predicate the code filters by; everything above is translated from the
source. -/

/-- Matching predicate from the words of the spec: the record field `name`
(missing treated as the empty string), rendered and case-folded, equals the
case-folded filter value. -/
def specNameMatch (v : String) (u : User) : Bool :=
  pyLower (pyStr (dictGetD u "name" (PyVal.str ""))) = pyLower v

/-! ## Helper lemmas -/

theorem filter_self_idem {α : Type} (p : α → Bool) (l : List α) :
    (l.filter p).filter p = l.filter p := by
  induction l with
  | nil => rfl
  | cons x xs ih =>
    by_cases h : p x
    · simp [List.filter_cons, h, ih]
    · simp [List.filter_cons, h, ih]

theorem mainLoaded_exit_zero (users : List User) (stdin : List InputEvent) :
    (mainLoaded users stdin).exitCode = 0 := by
  rw [mainLoaded]
  split
  · rfl
  · split
    · rfl
    · split <;> rfl

/-! ## Claims -/

/-- C1: for every user collection `U` and string `v`,
`filter_users_by_name U v` is exactly the subsequence of `U` (order
preserved) of records whose `name` field, case-folded, equals the
case-folded `v`, a missing `name` being read as the empty string. -/
theorem c1_filter_by_name_exact (U : List User) (v : String) :
    (filter_users_by_name U v).Sublist U ∧
    filter_users_by_name U v = U.filter (specNameMatch v) ∧
    ∀ u, u ∈ filter_users_by_name U v ↔ u ∈ U ∧ specNameMatch v u = true := by
  refine ⟨List.filter_sublist U, rfl, fun u => ?_⟩
  rw [filter_users_by_name]
  exact List.mem_filter

/-- C2 counterexample: the claim says a record whose `age` is a boolean is
never returned, but Python `bool` is a subclass of `int`
(`isinstance(True, int)` holds and `True == 1`), so the record with
`age = True` is returned when filtering for age `1`. -/
theorem c2_counterexample :
    filter_users_by_age [[("age", PyVal.bool true)]] 1 = [[("age", PyVal.bool true)]] ∧
    filter_users_by_age [[("age", PyVal.bool true)]] 1 ≠ [] := by
  decide

/-- C2 amended: `filter_users_by_age` never returns a record whose `age` is
a string, a float, `None`, or absent, even when numerically equal to the
query; a record is returned exactly when its `age` is the integer equal to
the query, or a boolean whose Python numeric value (`True = 1`,
`False = 0`) equals the query — because Python `bool` is a subclass of
`int`. -/
theorem c2_age_filter_membership (U : List User) (a : Int) (u : User) :
    u ∈ filter_users_by_age U a ↔
      u ∈ U ∧ (dictGet u "age" = PyVal.int a ∨
        (dictGet u "age" = PyVal.bool true ∧ a = 1) ∨
        (dictGet u "age" = PyVal.bool false ∧ a = 0)) := by
  rw [filter_users_by_age, List.mem_filter]
  refine and_congr_right fun _ => ?_
  rcases h : dictGet u "age" with _ | b | n | r | s
  · simp [isInstInt]
  · cases b <;> simp [isInstInt, pyIntVal, eq_comm]
  · simp [isInstInt, pyIntVal, eq_comm]
  · simp [isInstInt]
  · simp [isInstInt]

/-- C3: a missing users file is reported with a message naming the file and
exit status 1; a file with invalid JSON likewise, with a parse-failure
message; both happen before any prompting (the result does not depend on
standard input); every run that loads successfully exits with status 0,
whatever the user types or cancels. -/
theorem c3_load_failures_fatal_rest_normal (stdin : List InputEvent) (users : List User) :
    main LoadResult.fileNotFound stdin =
      ⟨["Users file not found: " ++ DEFAULT_USERS_FILE], 1⟩ ∧
    main LoadResult.parseError stdin =
      ⟨["Users file is not valid JSON: " ++ DEFAULT_USERS_FILE], 1⟩ ∧
    (main (LoadResult.ok users) stdin).exitCode = 0 :=
  ⟨rfl, rfl, mainLoaded_exit_zero users stdin⟩

/-- C4: `print_users` on an empty collection prints exactly the single line
`No users found.`; on a non-empty collection it prints exactly one line per
record, in input order, each in the format
`id: ..., name: ..., age: ..., email: ...` with the literal rendered field
value (`None` marking a missing field). -/
theorem c4_print_users_lines :
    print_users ([] : List User) = ["No users found."] ∧
    ∀ (u : User) (us : List User),
      print_users (u :: us) = (u :: us).map format_user ∧
      (print_users (u :: us)).length = (u :: us).length := by
  refine ⟨rfl, fun u us => ⟨rfl, ?_⟩⟩
  rw [print_users]
  simp

/-- C9: each of the three filters is idempotent — filtering its own output
with the same value returns that output unchanged.  The embedding is pure
(the filters build a new list and only read their input), so non-mutation
of the input collection is inherent in the translation. -/
theorem c9_filters_idempotent (U : List User) (v w : String) (a : Int) :
    filter_users_by_name (filter_users_by_name U v) v = filter_users_by_name U v ∧
    filter_users_by_age (filter_users_by_age U a) a = filter_users_by_age U a ∧
    filter_users_by_email (filter_users_by_email U w) w = filter_users_by_email U w := by
  exact ⟨filter_self_idem _ U, filter_self_idem _ U, filter_self_idem _ U⟩

/-- C5 counterexample: cancelling at the value prompt does not print only
the cancellation notice — `get_value_for_choice` returns `None`, which
`main` then treats like an empty value, additionally printing
`No value provided; exiting.`. -/
theorem c5_counterexample :
    main (LoadResult.ok []) [InputEvent.line "name", InputEvent.cancelled] =
      ⟨["\nInput cancelled.", "No value provided; exiting."], 0⟩ ∧
    (main (LoadResult.ok []) [InputEvent.line "name", InputEvent.cancelled]).output ≠
      ["\nInput cancelled."] := by
  decide

/-- C5 amended: cancellation at the choice prompt (interrupt, or an
exhausted input stream = end-of-input) ends the run with exit status 0
after printing only the cancellation notice; cancellation at the value
prompt also ends with exit status 0 and no filtering, but prints the
`No value provided; exiting.` message after the cancellation notice,
because the controller treats the cancelled value like an empty one. -/
theorem c5_cancellation_ends_run (users : List User) (rest : List InputEvent) (s : String) :
    main (LoadResult.ok users) (InputEvent.cancelled :: rest) =
      ⟨["\nInput cancelled."], 0⟩ ∧
    main (LoadResult.ok users) [] = ⟨["\nInput cancelled."], 0⟩ ∧
    (pyLower (pyStrip s) ∈ ["name", "age", "email"] →
      main (LoadResult.ok users) (InputEvent.line s :: InputEvent.cancelled :: rest) =
        ⟨["\nInput cancelled.", "No value provided; exiting."], 0⟩) := by
  refine ⟨rfl, rfl, fun h => ?_⟩
  show mainLoaded users _ = _
  rw [mainLoaded]
  simp [nextInput, get_choice, get_value_for_choice, h]

theorem c5_cancellation_ends_run_witness :
    main (LoadResult.ok []) [InputEvent.line "age", InputEvent.cancelled] =
      ⟨["\nInput cancelled.", "No value provided; exiting."], 0⟩ :=
  (c5_cancellation_ends_run [] [] "age").2.2 (by decide)

/-- C6: when the choice is `age` and the entered value (non-empty after
stripping) does not parse as a base-10 integer, the run prints the
invalid-integer message, nothing else, and exits normally — no filter is
invoked and no result line is printed. -/
theorem c6_invalid_age_text (users : List User) (s v : String) (rest : List InputEvent)
    (hc : pyLower (pyStrip s) = "age") (hv : pyStrip v ≠ "")
    (hp : pyInt (pyStrip v) = none) :
    main (LoadResult.ok users) (InputEvent.line s :: InputEvent.line v :: rest) =
      ⟨["Please enter a valid integer for age."], 0⟩ := by
  show mainLoaded users _ = _
  rw [mainLoaded]
  simp [nextInput, get_choice, get_value_for_choice, hc, hv, run_filter, hp]

theorem c6_invalid_age_text_witness :
    main (LoadResult.ok []) [InputEvent.line "age", InputEvent.line "thirty"] =
      ⟨["Please enter a valid integer for age."], 0⟩ :=
  c6_invalid_age_text [] "age" "thirty" [] (by decide) (by decide) (by decide)

/-- C7: any choice-prompt input that does not strip-and-casefold to `name`,
`age` or `email` (the empty line included) prints the invalid-choice
message and ends the run normally; the rest of standard input is never
read (the result is independent of it), so no value prompt occurs and no
filtering happens. -/
theorem c7_invalid_choice (users : List User) (s : String) (rest rest2 : List InputEvent)
    (h : pyLower (pyStrip s) ∉ ["name", "age", "email"]) :
    main (LoadResult.ok users) (InputEvent.line s :: rest) =
      ⟨["Invalid choice. Please enter 'name', 'age', or 'email'."], 0⟩ ∧
    main (LoadResult.ok users) (InputEvent.line s :: rest) =
      main (LoadResult.ok users) (InputEvent.line s :: rest2) := by
  have key : ∀ r : List InputEvent,
      main (LoadResult.ok users) (InputEvent.line s :: r) =
        ⟨["Invalid choice. Please enter 'name', 'age', or 'email'."], 0⟩ := by
    intro r
    show mainLoaded users _ = _
    rw [mainLoaded]
    simp [nextInput, get_choice, h]
  exact ⟨key rest, (key rest).trans (key rest2).symm⟩

theorem c7_invalid_choice_witness :
    main (LoadResult.ok []) [InputEvent.line "color"] =
      ⟨["Invalid choice. Please enter 'name', 'age', or 'email'."], 0⟩ :=
  (c7_invalid_choice [] "color" [] [] (by decide)).1

/-- C8: for every valid choice, a value that is empty after stripping ends
the run with the `No value provided; exiting.` message, exit status 0, and
no filter output. -/
theorem c8_empty_value_exits (users : List User) (s v : String) (rest : List InputEvent)
    (hc : pyLower (pyStrip s) ∈ ["name", "age", "email"]) (hv : pyStrip v = "") :
    main (LoadResult.ok users) (InputEvent.line s :: InputEvent.line v :: rest) =
      ⟨["No value provided; exiting."], 0⟩ := by
  show mainLoaded users _ = _
  rw [mainLoaded]
  simp [nextInput, get_choice, get_value_for_choice, hc, hv]

theorem c8_empty_value_exits_witness :
    main (LoadResult.ok []) [InputEvent.line "name", InputEvent.line "  "] =
      ⟨["No value provided; exiting."], 0⟩ :=
  c8_empty_value_exits [] "name" "  " [] (by decide) (by decide)

/-- C10: the name and email filters compare the `str` rendering of the
stored value, so a record whose `name` (resp. `email`) holds the integer 5
(resp. 7) is returned when filtering by the string form of that number. -/
theorem c10_non_string_fields_match :
    filter_users_by_name [[("name", PyVal.int 5)]] "5" = [[("name", PyVal.int 5)]] ∧
    filter_users_by_email [[("email", PyVal.int 7)]] "7" = [[("email", PyVal.int 7)]] := by
  decide

end FilterUsers
